import Mathlib

/-!
Verification of the connection-lifecycle manager and query catalog of
`dejavu/database_handler/sqlite_database.py`.

The development shallowly embeds:
* the per-`Cursor` connection cache (`queue.Queue(maxsize=5)` with
  `get_nowait` / `put_nowait` semantics),
* the `Cursor.__init__` acquisition logic (try cache, `conn.ping(True)`,
  `except queue.Empty: sqlite3.connect(...)`),
* `Cursor.clear_cache` / `SQLiteDatabase.after_fork`,
* the `Cursor.__exit__` scope-exit logic (`extype is DatabaseError` check,
  `self.cursor.rollback()`, `self.cursor.close()`, `self.conn.commit()`,
  `put_nowait` / `close`),
* the SQL statements `INSERT_SONG`, `SELECT_SONG`, `INSERT_FINGERPRINT`,
  `SELECT`, `DELETE_UNFINGERPRINTED` over a relational model of the two
  tables, with SQLite's `HEX` / `UNHEX` functions modelled bit-for-bit
  (`HEX` renders upper-case; `UNHEX` accepts either case).
-/

/-- Python exception values relevant to this module.  In the `sqlite3`
DB-API hierarchy, `IntegrityError`, `OperationalError`,
`ProgrammingError` and `DataError` are proper subclasses of
`DatabaseError`; `AttributeError` is unrelated to the DB-API tree and is
what Python raises when a missing attribute such as
`sqlite3.Cursor.rollback` or `sqlite3.Connection.ping` is looked up. -/
inductive PyError
  | DatabaseError
  | IntegrityError
  | OperationalError
  | ProgrammingError
  | DataError
  | AttributeError
  | ValueError
  deriving DecidableEq, Repr

/-- Semantics of `isinstance(e, sqlite3.DatabaseError)`: the structural (subclass-aware)
database-layer-error test.  Note this differs from the identity test
`extype is DatabaseError` used by `Cursor.__exit__`, which is true only
for `PyError.DatabaseError` itself. -/
def isDatabaseLayerError : PyError → Bool
  | .DatabaseError => true
  | .IntegrityError => true
  | .OperationalError => true
  | .ProgrammingError => true
  | .DataError => true
  | .AttributeError => false
  | .ValueError => false

/-- A database connection handle.  `opened file` is the result of
`sqlite3.connect(options["file"])`; `handle n` stands for any
pre-existing handle, e.g. one inherited from a parent process that could
sit in a cache. -/
inductive Conn
  | opened (file : String)
  | handle (n : Nat)
  deriving DecidableEq, Repr

/-- The `queue.Queue(maxsize=...)` holding idle connections: `items` in
FIFO order, `maxsize` the capacity bound. -/
structure Cache where
  items : List Conn
  maxsize : Nat
  deriving DecidableEq, Repr

/-- A `queue.Queue(maxsize=5)` freshly constructed: empty, capacity 5. -/
def emptyCache5 : Cache := { items := [], maxsize := 5 }

/-- Semantics of `Queue.get_nowait()`: `none` models the `queue.Empty` exception,
otherwise the front item is removed and returned. -/
def queueGetNowait (c : Cache) : Option (Conn × Cache) :=
  match c.items with
  | [] => none
  | x :: xs => some (x, { c with items := xs })

/-- Semantics of `Queue.put_nowait(conn)`: CPython raises `queue.Full` (modelled as
`none`) exactly when `0 < maxsize` and the queue already holds `maxsize`
items; otherwise the item is appended. -/
def queuePutNowait (c : Cache) (conn : Conn) : Option Cache :=
  if 0 < c.maxsize ∧ c.maxsize ≤ c.items.length then none
  else some { c with items := c.items ++ [conn] }

/-- What became of a session's connection when the scope exited. -/
inductive ConnFate
  | cached
  | closed
  | leaked
  deriving DecidableEq, Repr

/-- The release step at the end of `Cursor.__exit__`:
`try: self._cache.put_nowait(self.conn) except queue.Full: self.conn.close()`. -/
def releaseConn (c : Cache) (conn : Conn) : Cache × ConnFate :=
  match queuePutNowait c conn with
  | some c' => (c', ConnFate.cached)
  | none => (c, ConnFate.closed)

/-- The acquisition block of `Cursor.__init__` over a given cache state:

```
try:
    conn = self._cache.get_nowait()
    conn.ping(True)
except queue.Empty:
    conn = sqlite3.connect(options["file"])
```

If the cache is empty, `get_nowait` raises `queue.Empty`, which the
`except` clause catches, and a brand-new connection is opened.  If the
cache yields a connection, `conn.ping(True)` is evaluated — but
`sqlite3.Connection` has no `ping` attribute, so the lookup raises
`AttributeError`, which is not `queue.Empty` and therefore propagates to
the caller. -/
def acquireConn (cache : Cache) (file : String) : Except PyError (Conn × Cache) :=
  match queueGetNowait cache with
  | none => Except.ok (Conn.opened file, cache)
  | some _ => Except.error PyError.AttributeError

/-- The state of a `Cursor` object after `__init__`. -/
structure CursorObj where
  cache : Cache
  conn : Conn
  dictionary : Bool
  deriving DecidableEq, Repr

/-- Model of `Cursor.__init__(self, dictionary=False, **options)`.  The first
statement is `self._cache = queue.Queue(maxsize=5)`: it installs a fresh
empty queue as an *instance* attribute, which shadows any class-level
`_cache` (the `classCache` parameter, installed by `Cursor.clear_cache`)
for every subsequent `self._cache` lookup.  The acquisition block then
runs against that fresh empty instance cache. -/
def Cursor_init (classCache : Cache) (file : String) (dictionary : Bool) :
    Except PyError CursorObj :=
  let instCache := emptyCache5
  match acquireConn instCache file with
  | Except.ok (conn, c') => Except.ok { cache := c', conn := conn, dictionary := dictionary }
  | Except.error e => Except.error e

/-- Model of `Cursor.clear_cache`: `cls._cache = queue.Queue(maxsize=5)` — the
prior class-level cache is discarded (its handles simply forgotten, not
closed) and replaced by a fresh empty queue of capacity 5. -/
def clear_cache (_old : Cache) : Cache := emptyCache5

/-- Model of `SQLiteDatabase.after_fork`, which just calls `Cursor.clear_cache()`. -/
def after_fork : Cache → Cache := clear_cache

/-- Observable outcome of `Cursor.__exit__`: the exception propagating
out of the `with` block (if any), whether the code even attempted a
rollback call, the data visible in the database afterwards, the fate of
the session's connection, and the session cache afterwards. -/
structure ExitResult where
  raised : Option PyError
  rollbackAttempted : Bool
  visible : List Nat
  fate : ConnFate
  cache : Cache
  deriving DecidableEq, Repr

/-- Model of `Cursor.__exit__(self, extype, exvalue, traceback)`:

```
if extype is DatabaseError:
    self.cursor.rollback()
self.cursor.close()
self.conn.commit()
try:
    self._cache.put_nowait(self.conn)
except queue.Full:
    self.conn.close()
```

`extype is DatabaseError` is an identity test: it is true only when the
scope body raised exactly `sqlite3.DatabaseError`, never for its
subclasses (`IntegrityError`, `OperationalError`, ...).  On that branch
`self.cursor.rollback()` is attempted, but `sqlite3.Cursor` has no
`rollback` attribute, so the call raises `AttributeError`: `__exit__`
aborts, the new exception replaces the original one, no commit happens
(the uncommitted `pending` writes are never published) and the
connection is neither cached nor closed.  On every other path —
including subclass database errors and non-database errors — execution
falls through to `self.conn.commit()`, which publishes the session's
pending writes, and then releases the connection.  Returning `None`
from `__exit__` (falsy) means the original exception, if any, keeps
propagating.

`committed` is the data visible before the session began, `pending` the
writes issued inside the scope body and not yet committed. -/
def Cursor_exit (exc : Option PyError) (committed pending : List Nat)
    (cache : Cache) (conn : Conn) : ExitResult :=
  if exc = some PyError.DatabaseError then
    { raised := some PyError.AttributeError
      rollbackAttempted := true
      visible := committed
      fate := ConnFate.leaked
      cache := cache }
  else
    match releaseConn cache conn with
    | (c', fate) =>
      { raised := exc
        rollbackAttempted := false
        visible := committed ++ pending
        fate := fate
        cache := c' }

/-- Value of one hexadecimal digit; SQLite's `UNHEX` accepts both
lower- and upper-case digits. -/
def hexVal (c : Char) : Option Nat :=
  if '0' ≤ c ∧ c ≤ '9' then some (c.toNat - '0'.toNat)
  else if 'a' ≤ c ∧ c ≤ 'f' then some (c.toNat - 'a'.toNat + 10)
  else if 'A' ≤ c ∧ c ≤ 'F' then some (c.toNat - 'A'.toNat + 10)
  else none

/-- Decode a list of hex digits, two per byte; `none` models `UNHEX`
returning SQL `NULL` (odd length or a non-hex character). -/
def unhexChars : List Char → Option (List Nat)
  | [] => some []
  | [_] => none
  | c1 :: c2 :: rest =>
    match hexVal c1, hexVal c2, unhexChars rest with
    | some h, some l, some bs => some ((16 * h + l) :: bs)
    | _, _, _ => none

/-- SQLite `UNHEX(s)`: hex string to BLOB (a byte list), `NULL` on
malformed input. -/
def UNHEX (s : String) : Option (List Nat) := unhexChars s.data

/-- One upper-case hexadecimal digit, for values below 16. -/
def hexDigit (n : Nat) : Char :=
  if n < 10 then Char.ofNat ('0'.toNat + n) else Char.ofNat ('A'.toNat + n - 10)

/-- SQLite `HEX(b)`: the **upper-case** hexadecimal rendering of a BLOB
("returns a string which is the upper-case hexadecimal rendering of the
content of that blob"). -/
def HEX (bs : List Nat) : String :=
  String.mk (bs.foldr (fun b acc => hexDigit (b / 16 % 16) :: hexDigit (b % 16) :: acc) [])

/-- A row of the `songs` table (the columns the catalog statements
touch; timestamps are irrelevant to the claims). -/
structure SongRow where
  song_id : Nat
  song_name : String
  fingerprinted : Bool
  file_sha1 : List Nat
  total_hashes : Nat
  deriving DecidableEq, Repr

/-- The `songs` table with its AUTOINCREMENT primary-key counter
(`nextId` starts at 1; ids are assigned monotonically and never
reused). -/
structure SongsTable where
  rows : List SongRow
  nextId : Nat
  deriving DecidableEq, Repr

def emptySongs : SongsTable := { rows := [], nextId := 1 }

/-- Semantics of `INSERT_SONG`: `INSERT INTO songs (song_name, file_sha1, total_hashes)
VALUES (?, UNHEX(?), ?)` followed by `cur.lastrowid` as done by
`SQLiteDatabase.insert_song`.  `file_sha1` is `NOT NULL`, so a malformed
hex argument (where `UNHEX` yields `NULL`) is a constraint violation,
raised as `sqlite3.IntegrityError`.  A fresh `fingerprinted` column
defaults to 0. -/
def insert_song (t : SongsTable) (name fileHashHex : String) (total : Nat) :
    Except PyError (Nat × SongsTable) :=
  match UNHEX fileHashHex with
  | none => Except.error PyError.IntegrityError
  | some bs =>
    Except.ok (t.nextId,
      { rows := t.rows ++ [{ song_id := t.nextId, song_name := name,
                             fingerprinted := false, file_sha1 := bs,
                             total_hashes := total }]
        nextId := t.nextId + 1 })

/-- Semantics of `SELECT_SONG`: `SELECT song_name, HEX(file_sha1), total_hashes FROM
songs WHERE song_id = ?`.  A missing id yields no row (`none`), not an
error. -/
def select_song (t : SongsTable) (sid : Nat) : Option (String × String × Nat) :=
  (t.rows.find? (fun r => r.song_id == sid)).map
    (fun r => (r.song_name, HEX r.file_sha1, r.total_hashes))

/-- A row of the `fingerprints` table. -/
structure FingerprintRow where
  hash : List Nat
  song_id : Nat
  hash_offset : Nat
  deriving DecidableEq, Repr

/-- The `fingerprints` table, carrying the schema's
`UNIQUE(song_id, offset, hash)` constraint. -/
structure FingerprintsTable where
  rows : List FingerprintRow
  deriving DecidableEq, Repr

/-- Whether the table already holds the (songId, offset, hash) triple
guarded by the `UNIQUE` constraint. -/
def hasTriple (t : FingerprintsTable) (sid : Nat) (bs : List Nat) (off : Nat) : Bool :=
  t.rows.any (fun r => r.song_id == sid && r.hash_offset == off && r.hash == bs)

/-- Semantics of `INSERT_FINGERPRINT`: `INSERT OR IGNORE INTO fingerprints (song_id,
hash, offset) VALUES (?, UNHEX(?), ?)`.  `OR IGNORE` turns every
would-be constraint violation into silently skipping the row: a
duplicate of the `UNIQUE(song_id, offset, hash)` triple inserts
nothing, and a malformed hex hash (`UNHEX` → `NULL`, violating
`NOT NULL`) likewise inserts nothing.  No error is ever raised, which
the total return type reflects. -/
def insert_fingerprint (t : FingerprintsTable) (sid : Nat) (hashHex : String)
    (off : Nat) : FingerprintsTable :=
  match UNHEX hashHex with
  | none => t
  | some bs =>
    if hasTriple t sid bs off then t
    else { rows := t.rows ++ [{ hash := bs, song_id := sid, hash_offset := off }] }

/-- The whole database: both tables. -/
structure DB where
  songs : SongsTable
  fps : FingerprintsTable
  deriving DecidableEq, Repr

/-- Semantics of `SELECT`: `SELECT song_id, offset FROM fingerprints WHERE hash =
UNHEX(?)` — the single-hash lookup.  With a malformed hex argument the
comparison against `NULL` matches no row. -/
def select_by_hash (db : DB) (hashHex : String) : List (Nat × Nat) :=
  match UNHEX hashHex with
  | none => []
  | some bs =>
    (db.fps.rows.filter (fun r => r.hash == bs)).map
      (fun r => (r.song_id, r.hash_offset))

/-- Semantics of `DELETE_UNFINGERPRINTED` as the code actually executes it:
`DELETE FROM songs WHERE fingerprinted = 0`, run over connections
created by plain `sqlite3.connect(...)`.  The module never issues
`PRAGMA foreign_keys = ON`, and SQLite keeps foreign-key enforcement —
including `ON DELETE CASCADE` — **off by default on every connection**,
so only song rows are removed; the deleted songs' fingerprint rows
remain in place as orphans. -/
def delete_unfingerprinted (db : DB) : DB :=
  { db with songs := { rows := db.songs.rows.filter (fun r => r.fingerprinted)
                       nextId := db.songs.nextId } }

/-- Modelled from the spec: `DeleteUnfingerprintedSongs` with the
`ON DELETE CASCADE` declared by `CREATE_FINGERPRINTS_TABLE` actually
enforced (i.e. what the statement would do on a connection with
`PRAGMA foreign_keys = ON`): unfingerprinted songs are removed and
their fingerprint rows are deleted with them. -/
def delete_unfingerprinted_cascade (db : DB) : DB :=
  let keep := (db.songs.rows.filter (fun r => r.fingerprinted)).map (fun r => r.song_id)
  { songs := { rows := db.songs.rows.filter (fun r => r.fingerprinted)
               nextId := db.songs.nextId }
    fps := { rows := db.fps.rows.filter (fun r => keep.contains r.song_id) } }

/-- One cache-affecting operation, as the `Cursor` lifecycle performs
them: `acquire` is the `get_nowait` step of `Cursor.__init__` (when the
queue is empty the cache is left unchanged and a fresh connection is
opened outside it), `release conn` is the `put_nowait`-or-`close` tail
of `Cursor.__exit__`. -/
inductive CacheOp
  | acquire
  | release (conn : Conn)
  deriving DecidableEq, Repr

/-- Effect of one `CacheOp` on the cache contents. -/
def applyOp (c : Cache) : CacheOp → Cache
  | CacheOp.acquire =>
    match queueGetNowait c with
    | none => c
    | some (_, c') => c'
  | CacheOp.release conn => (releaseConn c conn).1

/-- Effect of a sequence of acquire/release operations on the cache. -/
def runOps (c : Cache) (ops : List CacheOp) : Cache := ops.foldl applyOp c

/-- Lower-case hex digest of the claimed insert: `"deadbeef" * 5`. -/
def c7Lower : String := "deadbeefdeadbeefdeadbeefdeadbeefdeadbeef"

/-- Upper-case rendering of the same digest, as SQLite `HEX` emits it. -/
def c7Upper : String := "DEADBEEFDEADBEEFDEADBEEFDEADBEEFDEADBEEF"

/-- The 20 bytes denoted by `c7Lower` (and by `c7Upper`). -/
def c7Bytes : List Nat :=
  [222, 173, 190, 239, 222, 173, 190, 239, 222, 173, 190, 239,
   222, 173, 190, 239, 222, 173, 190, 239]

/-- The `songs` table after inserting ("track", `c7Lower`, 42) into the
empty table. -/
def c7Table : SongsTable :=
  { rows := [{ song_id := 1, song_name := "track", fingerprinted := false,
               file_sha1 := c7Bytes, total_hashes := 42 }]
    nextId := 2 }

/-- An unfingerprinted song, eligible for the reap. -/
def c9Song1 : SongRow :=
  { song_id := 1, song_name := "s1", fingerprinted := false,
    file_sha1 := [], total_hashes := 1 }

/-- A fingerprinted song, which the reap must keep. -/
def c9Song2 : SongRow :=
  { song_id := 2, song_name := "s2", fingerprinted := true,
    file_sha1 := [], total_hashes := 1 }

/-- A database holding one unfingerprinted and one fingerprinted song,
each owning one fingerprint; the hash `[222, 173]` (hex `"dead"`)
belongs solely to the unfingerprinted song. -/
def c9DB : DB :=
  { songs := { rows := [c9Song1, c9Song2], nextId := 3 }
    fps := { rows := [{ hash := [222, 173], song_id := 1, hash_offset := 7 },
                      { hash := [1, 2], song_id := 2, hash_offset := 3 }] } }

/-- Applying one cache operation never changes the capacity bound. -/
theorem applyOp_maxsize (c : Cache) (op : CacheOp) : (applyOp c op).maxsize = c.maxsize := by
  obtain ⟨items, ms⟩ := c
  cases op with
  | acquire => cases items <;> rfl
  | release conn =>
    by_cases hfull : 0 < ms ∧ ms ≤ items.length
    · simp [applyOp, releaseConn, queuePutNowait, hfull]
    · simp [applyOp, releaseConn, queuePutNowait, hfull]

/-- Applying one cache operation preserves the idle-count bound (for a
positive capacity, as the code's literal `maxsize=5` always is). -/
theorem applyOp_length_le (c : Cache) (op : CacheOp) (hpos : 0 < c.maxsize)
    (h : c.items.length ≤ c.maxsize) : (applyOp c op).items.length ≤ c.maxsize := by
  obtain ⟨items, ms⟩ := c
  cases op with
  | acquire =>
    cases items with
    | nil => exact h
    | cons x xs => exact Nat.le_of_succ_le h
  | release conn =>
    by_cases hfull : 0 < ms ∧ ms ≤ items.length
    · simpa [applyOp, releaseConn, queuePutNowait, hfull] using h
    · have hlt : items.length < ms := by
        rcases Nat.lt_or_ge items.length ms with h' | h'
        · exact h'
        · exact absurd ⟨hpos, h'⟩ hfull
      simp only [applyOp, releaseConn, queuePutNowait, if_neg hfull]
      simp only [List.length_append, List.length_cons, List.length_nil]
      omega

/-- Running a sequence of cache operations never changes the capacity
bound. -/
theorem runOps_maxsize (ops : List CacheOp) (c : Cache) :
    (runOps c ops).maxsize = c.maxsize := by
  induction ops generalizing c with
  | nil => rfl
  | cons op ops ih =>
    show (runOps (applyOp c op) ops).maxsize = c.maxsize
    rw [ih, applyOp_maxsize]

/-- Running a sequence of cache operations preserves the idle-count
bound. -/
theorem runOps_length_le (ops : List CacheOp) (c : Cache) (hpos : 0 < c.maxsize)
    (h : c.items.length ≤ c.maxsize) : (runOps c ops).items.length ≤ c.maxsize := by
  induction ops generalizing c with
  | nil => exact h
  | cons op ops ih =>
    show (runOps (applyOp c op) ops).items.length ≤ c.maxsize
    have h1 : (applyOp c op).items.length ≤ (applyOp c op).maxsize := by
      rw [applyOp_maxsize]; exact applyOp_length_le c op hpos h
    have h2 : 0 < (applyOp c op).maxsize := by rw [applyOp_maxsize]; exact hpos
    have h3 := ih (applyOp c op) h2 h1
    rwa [applyOp_maxsize] at h3

/-- A freshly appended (songId, offset, hash) row is found by the
`UNIQUE`-constraint membership test. -/
theorem hasTriple_append (l : List FingerprintRow) (sid : Nat) (bs : List Nat) (off : Nat) :
    hasTriple { rows := l ++ [{ hash := bs, song_id := sid, hash_offset := off }] }
      sid bs off = true := by
  simp [hasTriple]

/-- C1: for a scoped session whose body raises a database-layer error, a
rollback is attempted on exit before release and the stored data is left
exactly as before the session.  The code violates this:
`sqlite3.IntegrityError` is a database-layer error (a subclass of
`DatabaseError`), but the exact-type test `extype is DatabaseError` in
`Cursor.__exit__` is false for it, so no rollback is even attempted and
`self.conn.commit()` publishes the session's pending writes — here the
visible data grows from `[1]` to `[1, 2]`. -/
theorem exit_commits_after_subclass_error :
    isDatabaseLayerError PyError.IntegrityError = true ∧
    (Cursor_exit (some PyError.IntegrityError) [1] [2] emptyCache5
        (Conn.opened "a.db")).rollbackAttempted = false ∧
    (Cursor_exit (some PyError.IntegrityError) [1] [2] emptyCache5
        (Conn.opened "a.db")).visible = [1, 2] ∧
    [1, 2] ≠ [1] := by decide

/-- C2: a rollback failure during exit must not replace the original
error.  The code violates this on the one path where it attempts a
rollback (body raised exactly `sqlite3.DatabaseError`):
`self.cursor.rollback()` raises `AttributeError` (sqlite3 cursors have
no `rollback`), and that `AttributeError` is what propagates out of the
`with` block instead of the original `DatabaseError`. -/
theorem exit_attributeerror_masks_original :
    (Cursor_exit (some PyError.DatabaseError) [1] [2] emptyCache5
        (Conn.opened "a.db")).raised = some PyError.AttributeError ∧
    some PyError.AttributeError ≠ some PyError.DatabaseError := by decide

/-- C3: every exit path must return the connection to the cache or close
it.  The code violates this: when the body raised exactly
`sqlite3.DatabaseError`, the `AttributeError` from
`self.cursor.rollback()` aborts `__exit__` before the
`put_nowait`/`close` tail runs, so the connection is neither cached nor
closed. -/
theorem exit_leaks_connection_on_exact_database_error :
    (Cursor_exit (some PyError.DatabaseError) [1] [2] emptyCache5
        (Conn.opened "a.db")).fate = ConnFate.leaked ∧
    ConnFate.leaked ≠ ConnFate.cached ∧ ConnFate.leaked ≠ ConnFate.closed := by decide

/-- C4: over every sequence of acquire/release operations on a cache of
positive capacity, the number of idle cached connections never exceeds
the capacity; a release inserts the connection back exactly when spare
capacity remains and otherwise closes it immediately. -/
theorem cache_bounded_and_release_policy (c : Cache) (ops : List CacheOp) (conn : Conn)
    (hpos : 0 < c.maxsize) (hlen : c.items.length ≤ c.maxsize) :
    (runOps c ops).items.length ≤ c.maxsize ∧
    (c.items.length < c.maxsize →
      releaseConn c conn = ({ c with items := c.items ++ [conn] }, ConnFate.cached)) ∧
    (c.maxsize ≤ c.items.length →
      releaseConn c conn = (c, ConnFate.closed)) := by
  refine ⟨runOps_length_le ops c hpos hlen, ?_, ?_⟩
  · intro hlt
    have hfull : ¬ (0 < c.maxsize ∧ c.maxsize ≤ c.items.length) := by omega
    simp [releaseConn, queuePutNowait, hfull]
  · intro hge
    have hfull : 0 < c.maxsize ∧ c.maxsize ≤ c.items.length := ⟨hpos, hge⟩
    simp [releaseConn, queuePutNowait, hfull]

/-- Witness for C4 at the fresh capacity-5 cache and a two-operation
sequence. -/
theorem cache_bounded_and_release_policy_witness :
    (runOps emptyCache5 [CacheOp.release (Conn.opened "a.db"), CacheOp.acquire]).items.length
        ≤ emptyCache5.maxsize ∧
    (emptyCache5.items.length < emptyCache5.maxsize →
      releaseConn emptyCache5 (Conn.handle 0) =
        ({ emptyCache5 with items := emptyCache5.items ++ [Conn.handle 0] }, ConnFate.cached)) ∧
    (emptyCache5.maxsize ≤ emptyCache5.items.length →
      releaseConn emptyCache5 (Conn.handle 0) = (emptyCache5, ConnFate.closed)) :=
  cache_bounded_and_release_policy emptyCache5
    [CacheOp.release (Conn.opened "a.db"), CacheOp.acquire] (Conn.handle 0)
    (by decide) (by decide)

/-- C5: after the post-fork hook the connection cache holds zero entries
regardless of its prior state, and a subsequent acquisition can only
open a brand-new connection — never hand out a handle inherited from the
parent. -/
theorem after_fork_empties_cache (c : Cache) (file : String) (d : Bool) :
    (after_fork c).items = [] ∧
    acquireConn (after_fork c) file = Except.ok (Conn.opened file, after_fork c) ∧
    Cursor_init (after_fork c) file d =
      Except.ok { cache := emptyCache5, conn := Conn.opened file, dictionary := d } :=
  ⟨rfl, rfl, rfl⟩

/-- C6: acquisition is claimed to health-probe a cached connection,
discard it on probe failure and open a fresh one, never surfacing the
probe failure.  The code violates this: on a cache hit,
`conn.ping(True)` raises `AttributeError` (sqlite3 connections have no
`ping`), which is not `queue.Empty` and therefore propagates to the
caller instead of falling back to a fresh connection. -/
theorem acquire_surfaces_probe_failure :
    acquireConn { items := [Conn.handle 0], maxsize := 5 } "a.db" =
      Except.error PyError.AttributeError := rfl

/-- C7 counterexample: inserting ("track", `"deadbeef" * 5`, 42) and
fetching the new id does **not** return the inserted lower-case hex
string — SQLite's `HEX` renders the stored blob in upper case. -/
theorem insert_song_roundtrip_lowercase_cex :
    insert_song emptySongs "track" c7Lower 42 = Except.ok (1, c7Table) ∧
    select_song c7Table 1 ≠ some ("track", c7Lower, 42) :=
  ⟨rfl, by decide⟩

/-- C7 amended: `insert_song "track" ("deadbeef" * 5) 42` returns the
positive id 1, and fetching that id returns name "track", the
**upper-case** hex rendering `"DEADBEEF..."` of the inserted digest
(the same bytes, case changed by `HEX`), and total hashes 42. -/
theorem insert_song_roundtrip_uppercase :
    insert_song emptySongs "track" c7Lower 42 = Except.ok (1, c7Table) ∧
    0 < 1 ∧
    select_song c7Table 1 = some ("track", c7Upper, 42) ∧
    c7Upper = HEX c7Bytes :=
  ⟨rfl, by decide, by decide, by decide⟩

/-- C8: inserting the same (songId, offset, hash) triple a second time
raises nothing (the operation is total) and leaves the fingerprint table
exactly as it was after the first insert. -/
theorem insert_fingerprint_idempotent (t : FingerprintsTable) (sid : Nat)
    (hashHex : String) (off : Nat) :
    insert_fingerprint (insert_fingerprint t sid hashHex off) sid hashHex off =
      insert_fingerprint t sid hashHex off := by
  cases hu : UNHEX hashHex with
  | none => simp [insert_fingerprint, hu]
  | some bs =>
    cases ht : hasTriple t sid bs off with
    | true => simp [insert_fingerprint, hu, ht]
    | false => simp [insert_fingerprint, hu, ht, hasTriple_append]

/-- C9: the delete-unfingerprinted statement is claimed to cascade so
that a hash belonging solely to a deleted song afterwards looks up
empty.  The code violates the cascade half: it runs `DELETE FROM songs
WHERE fingerprinted = 0` on connections that never enable SQLite
foreign-key enforcement (no `PRAGMA foreign_keys = ON`), so the declared
`ON DELETE CASCADE` does not fire — the unfingerprinted song is removed,
but its fingerprint survives as an orphan and the single-hash lookup
still returns it, while the spec-modelled cascading variant returns
empty. -/
theorem delete_unfingerprinted_orphans_fingerprints :
    (delete_unfingerprinted c9DB).songs.rows = [c9Song2] ∧
    select_by_hash (delete_unfingerprinted c9DB) "dead" = [(1, 7)] ∧
    select_by_hash (delete_unfingerprinted_cascade c9DB) "dead" = [] := by decide

/-- C10: every `Cursor` assigns itself a freshly created empty
per-instance cache before reading from it, so construction always opens
a brand-new connection, and the class-level queue installed by
`Cursor.clear_cache` is never consulted — construction is independent of
it. -/
theorem cursor_init_fresh_cache_fresh_connection (classCache classCache' : Cache)
    (file : String) (d : Bool) :
    Cursor_init classCache file d =
      Except.ok { cache := emptyCache5, conn := Conn.opened file, dictionary := d } ∧
    Cursor_init classCache file d = Cursor_init classCache' file d :=
  ⟨rfl, rfl⟩
